import Mathlib

/-!
Verification of the Balaur daemon supervisor (a Node.js daemonizing manager)
against its natural-language specification.  The definitions below are a
shallow embedding of the supervisor class: the pidfile registry, the liveness
probe, the command entry points (start/stop/restart), the worker-pool exit
handler and the SIGHUP restart sequence.  File-system reads are modelled as
`Option String` (with `none` for a missing or unreadable file), the operating
system's reaction to a zero-signal probe as an oracle `Int → KillOutcome`,
and the effectful command bodies as explicit action traces.
-/

namespace Balaur

/-! ## Exit code constants (static getters of the Balaur class) -/

def EXIT_CODE_OK : Nat := 0

def EXIT_CODE_CATCH_ALL : Nat := 1

def EXIT_CODE_CANNOT_EXECUTE : Nat := 126

def EXIT_CODE_CONTROL_C : Nat := 130

def EXIT_CODE_UNHANDLED_REJECTION : Nat := 131

def EXIT_CODE_UNHANDLED_EXCEPTION : Nat := 132

def EXIT_CODE_TERMINATED : Nat := 255

/-! ## JavaScript `parseInt` model

The constructor calls the platform function `parseInt(data)` on the pidfile
content.  We embed its semantics for a radix-10 default: leading whitespace
is skipped, an optional sign is read, a `0x`/`0X` prefix switches to
hexadecimal, digits are consumed greedily up to the first invalid character,
and an input with no digits yields `NaN` (embedded as `none`). -/

def isDigit (c : Char) : Bool := 48 ≤ c.toNat && c.toNat ≤ 57

def digitVal (c : Char) : Nat := c.toNat - 48

def isHexDigit (c : Char) : Bool :=
  isDigit c || (97 ≤ c.toNat && c.toNat ≤ 102) || (65 ≤ c.toNat && c.toNat ≤ 70)

def hexVal (c : Char) : Nat :=
  if isDigit c then digitVal c
  else if 97 ≤ c.toNat then c.toNat - 97 + 10
  else c.toNat - 65 + 10

/-- Whitespace characters skipped by `parseInt` (space, tab, LF, VT, FF, CR). -/
def jsWhitespace (c : Char) : Bool :=
  c.toNat = 32 || c.toNat = 9 || c.toNat = 10 || c.toNat = 11 || c.toNat = 12 || c.toNat = 13

/-- Greedy decimal-digit consumption: accumulates digits, stops at the first
non-digit character (as `parseInt` does). -/
def parseDigitsAux : List Char → Nat → Nat
  | [], acc => acc
  | c :: cs, acc => if isDigit c then parseDigitsAux cs (acc * 10 + digitVal c) else acc

/-- Greedy hexadecimal-digit consumption. -/
def parseHexAux : List Char → Nat → Nat
  | [], acc => acc
  | c :: cs, acc => if isHexDigit c then parseHexAux cs (acc * 16 + hexVal c) else acc

/-- The unsigned part of `parseInt`: a `0x`/`0X` prefix selects hexadecimal,
otherwise decimal digits are consumed; no valid digit at all yields `none`
(JavaScript `NaN`). -/
def parseUnsigned (cs : List Char) : Option Nat :=
  match cs with
  | [] => none
  | c :: cs' =>
    if c = '0' ∧ (cs'.head? = some 'x' ∨ cs'.head? = some 'X') then
      match cs'.tail with
      | [] => none
      | r :: rs => if isHexDigit r then some (parseHexAux (r :: rs) 0) else none
    else if isDigit c then some (parseDigitsAux (c :: cs') 0) else none

/-- The optional sign in front of the unsigned part. -/
def parseSigned : List Char → Option Int
  | [] => none
  | c :: rest =>
    if c = '-' then (parseUnsigned rest).map (fun n => -(n : Int))
    else if c = '+' then (parseUnsigned rest).map (fun n => (n : Int))
    else (parseUnsigned (c :: rest)).map (fun n => (n : Int))

/-- JavaScript `parseInt(s)` with the default radix: `none` embeds `NaN`. -/
def parseInt (s : String) : Option Int :=
  parseSigned (s.data.dropWhile jsWhitespace)

/-! ## Decimal printing (JavaScript `Number.prototype.toString` on integers) -/

/-- Decimal digit list of a natural number, most significant first.  The
fuel argument makes the recursion structural; `natDigits` supplies enough
fuel for any input. -/
def natDigitsAux : Nat → Nat → List Char
  | 0, _ => []
  | fuel + 1, n =>
    if n < 10 then [Nat.digitChar n]
    else natDigitsAux fuel (n / 10) ++ [Nat.digitChar (n % 10)]

def natDigits (n : Nat) : List Char := natDigitsAux (n + 1) n

/-- JavaScript `toString()` on an integer value: decimal digits, with a
leading minus sign for negative values. -/
def intToString (n : Int) : String :=
  if n < 0 then String.mk ('-' :: natDigits n.natAbs) else String.mk (natDigits n.toNat)

/-! ## Pid Registry: constructor-time pidfile load

`fs.accessSync`/`fs.readFileSync` throwing (missing or unreadable file) is
embedded as `none`; the silent `catch` leaves the pid `null`.  A truthy
(nonempty) content string is fed to `parseInt`; a `NaN` result is mapped
back to `null`. -/

def loadPid (file : Option String) : Option Int :=
  match file with
  | none => none
  | some data =>
    if data = "" then none
    else
      match parseInt data with
      | none => none
      | some n => some n

/-- `fs.writeFileSync(pidfilePath, content)`: the resulting file state. -/
def writePidfile (content : String) : Option String := some content

/-! ## Liveness Prober (`#processExists`)

`process.kill(pid, 0)` is a zero-effect signal delivery.  The operating
system's reaction to probing a concrete pid is an oracle `Int → KillOutcome`;
passing the JavaScript `null` pid makes `process.kill` throw the
invalid-argument error before any signal is attempted. -/

inductive KillOutcome where
  | ok : KillOutcome
  | errESRCH : KillOutcome
  | errEPERM : KillOutcome
  | errInvalidArg : KillOutcome
deriving DecidableEq

/-- The outcome of `process.kill(pid, 0)`: a `null` pid throws the
invalid-argument type error, otherwise the oracle decides. -/
def killProbe (os : Int → KillOutcome) (pid : Option Int) : KillOutcome :=
  match pid with
  | none => KillOutcome.errInvalidArg
  | some p => os p

/-- `#processExists`: `try { return process.kill(pid, 0) } catch (err)
{ return err.code === 'EPERM' }`.  Successful delivery returns `true`;
any thrown error returns whether its code is `EPERM`. -/
def processExists (os : Int → KillOutcome) (pid : Option Int) : Bool :=
  match killProbe os pid with
  | KillOutcome.ok => true
  | e => e = KillOutcome.errEPERM

/-! ## Command traces -/

inductive Sig where
  | SIGINT : Sig
  | SIGTERM : Sig
  | SIGHUP : Sig
  | SIGKILL : Sig
deriving DecidableEq

inductive CmdAction where
  | writePidfileA : String → CmdAction
  | sendSignal : Option Int → Sig → CmdAction
  | logErrorA : String → CmdAction
  | exitA : Nat → CmdAction
deriving DecidableEq

/-- The pidfile re-assertion content used by `#stop` and `#restart`:
`this.#pid ? `${this.#pid}` : ''` — a JavaScript-falsy pid (`null` or `0`)
writes the empty string. -/
def pidfileReassert (pid : Option Int) : String :=
  match pid with
  | none => ""
  | some p => if p = 0 then "" else intToString p

/-- `#stop`: fail with exit 126 when no live process is recorded; otherwise
re-assert the pidfile, signal SIGTERM (force) or SIGINT (default), exit 0. -/
def stopCmd (os : Int → KillOutcome) (pid : Option Int) (force : Bool) : List CmdAction :=
  if !(processExists os pid) then
    [CmdAction.logErrorA "Daemon not started, unable to stop.",
     CmdAction.exitA EXIT_CODE_CANNOT_EXECUTE]
  else
    [CmdAction.writePidfileA (pidfileReassert pid),
     CmdAction.sendSignal pid (if force then Sig.SIGTERM else Sig.SIGINT),
     CmdAction.exitA EXIT_CODE_OK]

/-- `#restart`: fail with exit 126 when no live process is recorded or on
win32; otherwise re-assert the pidfile, signal SIGHUP (SIGINT on a platform
whose name starts with "win"), exit 0. -/
def restartCmd (os : Int → KillOutcome) (platform : String) (pid : Option Int) :
    List CmdAction :=
  if !(processExists os pid) then
    [CmdAction.logErrorA "Daemon not started, unable to restart.",
     CmdAction.exitA EXIT_CODE_CANNOT_EXECUTE]
  else if platform = "win32" then
    [CmdAction.logErrorA "Windows does not support POSIX, unable to restart.",
     CmdAction.exitA EXIT_CODE_CANNOT_EXECUTE]
  else
    [CmdAction.writePidfileA (pidfileReassert pid),
     CmdAction.sendSignal pid (if platform.startsWith "win" then Sig.SIGINT else Sig.SIGHUP),
     CmdAction.exitA EXIT_CODE_OK]

/-- What `#start` decides to do. -/
inductive StartOutcome where
  | runSequence : StartOutcome
  | daemonize : Bool → StartOutcome
  | failExit : Nat → StartOutcome
  | fallThrough : StartOutcome
deriving DecidableEq

/-- `#start`: if the current process is the recorded one, run the cluster
sequence (self-recognition); else if no live process is recorded, daemonize;
else a cluster master fails with exit 126 and a cluster worker runs the
sequence. -/
def startCmd (os : Int → KillOutcome) (curPid : Int) (pid : Option Int)
    (isMaster isWorker inspect : Bool) : StartOutcome :=
  if pid = some curPid then StartOutcome.runSequence
  else if !(processExists os pid) then StartOutcome.daemonize inspect
  else if isMaster then StartOutcome.failExit EXIT_CODE_CANNOT_EXECUTE
  else if isWorker then StartOutcome.runSequence
  else StartOutcome.fallThrough

/-! ## Daemon Launcher (`#startDaemon`) and SIGHUP handler -/

/-- The stdio wiring chosen by `#startDaemon`: append-mode files when both
sink paths are truthy (nonempty), otherwise fully piped (and unread). -/
inductive StdioMode where
  | appendFiles : String → String → StdioMode
  | pipeDiscard : StdioMode
deriving DecidableEq

def stdioChoice (stdOut stdErr : String) : StdioMode :=
  if stdOut ≠ "" ∧ stdErr ≠ "" then StdioMode.appendFiles stdOut stdErr
  else StdioMode.pipeDiscard

/-- Effectful steps taken inside the master process. -/
inductive MasterAction where
  | openStdio : StdioMode → MasterAction
  | spawnChild : Int → Bool → MasterAction
  | writePidfileM : String → MasterAction
  | unrefChild : MasterAction
  | disconnectAll : MasterAction
  | killWorker : Int → Sig → MasterAction
  | exitM : Nat → MasterAction
deriving DecidableEq

/-- `#startDaemon(inspect)`: open the sinks, fork a detached child re-running
the entry point, write the child's pid to the pidfile, unref the child and
exit with the OK status.  `newPid` is the pid the OS assigns to the child. -/
def startDaemon (stdOut stdErr : String) (inspect : Bool) (newPid : Int) :
    List MasterAction :=
  [MasterAction.openStdio (stdioChoice stdOut stdErr),
   MasterAction.spawnChild newPid inspect,
   MasterAction.writePidfileM (intToString newPid),
   MasterAction.unrefChild,
   MasterAction.exitM EXIT_CODE_OK]

/-- The master's SIGHUP handler: disconnect the cluster, SIGKILL every
still-running worker, then run `#startDaemon` (with `inspect` defaulted to
`false`). -/
def sighupHandler (stdOut stdErr : String) (workerPids : List Int) (newPid : Int) :
    List MasterAction :=
  MasterAction.disconnectAll ::
    (workerPids.map (fun p => MasterAction.killWorker p Sig.SIGKILL)
      ++ startDaemon stdOut stdErr false newPid)

/-- The pidfile content after a list of master actions has run, starting
from `init`: each `writePidfileM` overwrites it wholesale. -/
def finalPidfile (init : String) : List MasterAction → String
  | [] => init
  | MasterAction.writePidfileM s :: rest => finalPidfile s rest
  | _ :: rest => finalPidfile init rest

/-! ## Worker Pool Controller: the cluster exit handler

State local to one master lifetime: `exitCount` (the ungraceful-exit retry
counter) and `gracefulExitCount`, both starting at 0.  `poolSize` is
bookkeeping not present as a variable in the source: it mirrors the number
of live workers (one worker has just exited when the handler runs, and
`cluster.fork()` adds one back). -/

structure MasterState where
  exitCount : Nat
  gracefulExitCount : Nat
  poolSize : Int
deriving DecidableEq

/-- The initial master state right after the initial `workerCount` forks. -/
def initialMasterState (workers : Nat) : MasterState :=
  { exitCount := 0, gracefulExitCount := 0, poolSize := (workers : Int) }

/-- The `cluster.on('exit', ...)` event payload: whether the worker had been
deliberately disconnected, its exit code (`none` when killed by a signal)
and the terminating signal. -/
structure ExitEvent where
  exitedAfterDisconnect : Bool
  code : Option Int
  signal : Option Sig
deriving DecidableEq

/-- What one run of the exit handler did: the updated state, whether
`cluster.fork()` was called, and whether the "all cluster workers exited
gracefully" completion message fired. -/
structure HandlerResult where
  state : MasterState
  forked : Bool
  allGracefulFired : Bool
deriving DecidableEq

/-- The body of `cluster.on('exit', (worker, code, signal) => ...)`.
Mirrors the source exactly: the graceful branch increments the graceful
counter and fires the completion message when it reaches `workers`; the
crash path tests `exitCount++ > 10` (post-increment: the old value is
compared), then the two sentinel codes, and otherwise forks a replacement. -/
def onExit (workers : Nat) (s : MasterState) (e : ExitEvent) : HandlerResult :=
  let afterExit : MasterState := { s with poolSize := s.poolSize - 1 }
  if e.exitedAfterDisconnect then
    let g := afterExit.gracefulExitCount + 1
    { state := { afterExit with gracefulExitCount := g },
      forked := false,
      allGracefulFired := decide (g = workers) }
  else
    let old := afterExit.exitCount
    let bumped : MasterState := { afterExit with exitCount := old + 1 }
    if old > 10 then
      { state := bumped, forked := false, allGracefulFired := false }
    else if e.code = some (EXIT_CODE_UNHANDLED_REJECTION : Int) then
      { state := bumped, forked := false, allGracefulFired := false }
    else if e.code = some (EXIT_CODE_UNHANDLED_EXCEPTION : Int) then
      { state := bumped, forked := false, allGracefulFired := false }
    else
      { state := { bumped with poolSize := bumped.poolSize + 1 },
        forked := true, allGracefulFired := false }

/-- Folds the exit handler over a sequence of exit events (the master's
single control flow handles them one at a time, in delivery order). -/
def runState (workers : Nat) (s : MasterState) : List ExitEvent → MasterState
  | [] => s
  | e :: es => runState workers (onExit workers s e).state es

/-- Like `runState` but keeping every handler result, in order. -/
def runHandler (workers : Nat) (s : MasterState) : List ExitEvent → List HandlerResult
  | [] => []
  | e :: es => onExit workers s e :: runHandler workers (onExit workers s e).state es

/-! ## Constructor: configuration resolution

JavaScript `config?.field || default` replaces a missing (`none`) or falsy
value with the default; the falsy strings are exactly `""` and the falsy
numbers include `0`. -/

structure BalaurConfig where
  workers : Option Int
  pidfilePath : Option String
  stdOutPath : Option String
  stdErrPath : Option String

def jsOrString (v : Option String) (d : String) : String :=
  match v with
  | none => d
  | some s => if s = "" then d else s

def jsOrInt (v : Option Int) (d : Int) : Int :=
  match v with
  | none => d
  | some n => if n = 0 then d else n

structure ResolvedConfig where
  workers : Int
  pidfilePath : String
  stdOutPath : String
  stdErrPath : String

/-- The field defaulting performed by the constructor. -/
def resolveConfig (nodeEnvDevelopment : Bool) (cpuCount : Int) (cfg : BalaurConfig) :
    ResolvedConfig :=
  { workers := jsOrInt cfg.workers (if nodeEnvDevelopment then 1 else cpuCount),
    pidfilePath := jsOrString cfg.pidfilePath "pidfile.pid",
    stdOutPath := jsOrString cfg.stdOutPath "out.log",
    stdErrPath := jsOrString cfg.stdErrPath "err.log" }

/-! ## Concrete events used in closed statements -/

/-- An ordinary crash: not disconnected, non-sentinel exit code 1. -/
def crashEvent : ExitEvent :=
  { exitedAfterDisconnect := false, code := some 1, signal := none }

/-- A graceful, disconnect-induced exit. -/
def gracefulEvent : ExitEvent :=
  { exitedAfterDisconnect := true, code := some 0, signal := none }

/-- A configuration with falsy sink paths (one missing, one empty). -/
def sampleConfig : BalaurConfig :=
  { workers := none, pidfilePath := none, stdOutPath := none, stdErrPath := some "" }

/-! ## Helper lemmas: decimal printing and parsing round-trip -/

theorem digitChar_isDigit {n : Nat} (h : n < 10) : isDigit (Nat.digitChar n) = true := by
  interval_cases n <;> decide

theorem digitChar_val {n : Nat} (h : n < 10) : digitVal (Nat.digitChar n) = n := by
  interval_cases n <;> decide

theorem parseDigitsAux_append (xs ys : List Char) (acc : Nat)
    (h : ∀ c ∈ xs, isDigit c = true) :
    parseDigitsAux (xs ++ ys) acc = parseDigitsAux ys (parseDigitsAux xs acc) := by
  induction xs generalizing acc with
  | nil => rfl
  | cons c cs ih =>
    have hc : isDigit c = true := h c (List.mem_cons_self _ _)
    simp only [List.cons_append, parseDigitsAux, hc, if_true]
    exact ih _ (fun d hd => h d (List.mem_cons_of_mem _ hd))

theorem natDigitsAux_digits (fuel : Nat) :
    ∀ n, n < fuel → ∀ c ∈ natDigitsAux fuel n, isDigit c = true := by
  induction fuel with
  | zero => intro n h; omega
  | succ fuel ih =>
    intro n hn c hc
    by_cases h10 : n < 10
    · simp [natDigitsAux, h10] at hc
      subst hc; exact digitChar_isDigit h10
    · simp [natDigitsAux, h10] at hc
      rcases hc with hc | hc
      · exact ih (n / 10) (by omega) c hc
      · subst hc; exact digitChar_isDigit (by omega)

theorem natDigitsAux_ne_nil (fuel : Nat) :
    ∀ n, n < fuel → natDigitsAux fuel n ≠ [] := by
  induction fuel with
  | zero => intro n h; omega
  | succ fuel _ =>
    intro n _
    by_cases h10 : n < 10
    · simp [natDigitsAux, h10]
    · simp [natDigitsAux, h10]

theorem parseDigitsAux_natDigitsAux (fuel : Nat) :
    ∀ n acc, n < fuel →
      parseDigitsAux (natDigitsAux fuel n) acc
        = acc * 10 ^ (natDigitsAux fuel n).length + n := by
  induction fuel with
  | zero => intro n acc h; omega
  | succ fuel ih =>
    intro n acc hn
    by_cases h10 : n < 10
    · simp [natDigitsAux, h10, parseDigitsAux, digitChar_isDigit h10, digitChar_val h10]
    · have hdiv : n / 10 < fuel := by omega
      have hsplit : natDigitsAux (fuel + 1) n
          = natDigitsAux fuel (n / 10) ++ [Nat.digitChar (n % 10)] := by
        simp [natDigitsAux, h10]
      rw [hsplit,
        parseDigitsAux_append _ _ _ (natDigitsAux_digits fuel (n / 10) hdiv),
        ih (n / 10) acc hdiv]
      have hm : n % 10 < 10 := by omega
      simp only [parseDigitsAux, digitChar_isDigit hm, digitChar_val hm, if_true,
        List.length_append, List.length_cons, List.length_nil]
      have hP : n / 10 * 10 + n % 10 = n := by omega
      calc (acc * 10 ^ (natDigitsAux fuel (n / 10)).length + n / 10) * 10 + n % 10
          = acc * (10 ^ (natDigitsAux fuel (n / 10)).length * 10)
            + (n / 10 * 10 + n % 10) := by ring
        _ = acc * 10 ^ ((natDigitsAux fuel (n / 10)).length + (0 + 1)) + n := by
            rw [hP]; ring_nf


theorem natDigitsAux_head_ne_zero (fuel : Nat) :
    ∀ n, n < fuel → 1 ≤ n → ∀ c cs, natDigitsAux fuel n = c :: cs → c ≠ '0' := by
  induction fuel with
  | zero => intro n h; omega
  | succ fuel ih =>
    intro n hn h1 c cs hEq
    by_cases h10 : n < 10
    · simp only [natDigitsAux, if_pos h10] at hEq
      cases hEq
      interval_cases n <;> decide
    · have hdiv : n / 10 < fuel := by omega
      have hdiv1 : 1 ≤ n / 10 := by omega
      simp only [natDigitsAux, if_neg h10] at hEq
      obtain ⟨d, ds, hds⟩ : ∃ d ds, natDigitsAux fuel (n / 10) = d :: ds := by
        cases hnd : natDigitsAux fuel (n / 10) with
        | nil => exact absurd hnd (natDigitsAux_ne_nil fuel (n / 10) hdiv)
        | cons d ds => exact ⟨d, ds, rfl⟩
      rw [hds, List.cons_append] at hEq
      injection hEq with h1 _
      subst h1
      exact ih (n / 10) hdiv hdiv1 _ ds hds

theorem natDigits_digits (n : Nat) : ∀ c ∈ natDigits n, isDigit c = true :=
  natDigitsAux_digits (n + 1) n (Nat.lt_succ_self n)

theorem natDigits_ne_nil (n : Nat) : natDigits n ≠ [] :=
  natDigitsAux_ne_nil (n + 1) n (Nat.lt_succ_self n)

theorem parseDigitsAux_natDigits (n : Nat) : parseDigitsAux (natDigits n) 0 = n := by
  have h := parseDigitsAux_natDigitsAux (n + 1) n 0 (Nat.lt_succ_self n)
  simpa [natDigits] using h

theorem parseUnsigned_natDigits (n : Nat) : parseUnsigned (natDigits n) = some n := by
  by_cases h0 : n = 0
  · subst h0; decide
  · obtain ⟨c, cs, hcs⟩ : ∃ c cs, natDigits n = c :: cs := by
      cases h : natDigits n with
      | nil => exact absurd h (natDigits_ne_nil n)
      | cons c cs => exact ⟨c, cs, rfl⟩
    have hc0 : c ≠ '0' :=
      natDigitsAux_head_ne_zero (n + 1) n (Nat.lt_succ_self n) (by omega) c cs hcs
    have hcd : isDigit c = true := natDigits_digits n c (hcs ▸ List.mem_cons_self c cs)
    rw [hcs]
    simp only [parseUnsigned, hcd, if_true]
    rw [if_neg (fun h => hc0 h.1), ← hcs, parseDigitsAux_natDigits]

theorem isDigit_not_sign {c : Char} (h : isDigit c = true) :
    c ≠ '-' ∧ c ≠ '+' ∧ jsWhitespace c = false := by
  simp only [isDigit, Bool.and_eq_true, decide_eq_true_eq] at h
  refine ⟨fun hc => ?_, fun hc => ?_, ?_⟩
  · subst hc; exact absurd h (by decide)
  · subst hc; exact absurd h (by decide)
  · simp only [jsWhitespace, Bool.or_eq_false_iff, decide_eq_false_iff_not]
    omega

theorem parseInt_mk_natDigits (n : Nat) :
    parseInt (String.mk (natDigits n)) = some (n : Int) := by
  obtain ⟨c, cs, hcs⟩ : ∃ c cs, natDigits n = c :: cs := by
    cases h : natDigits n with
    | nil => exact absurd h (natDigits_ne_nil n)
    | cons c cs => exact ⟨c, cs, rfl⟩
  have hcd : isDigit c = true := natDigits_digits n c (hcs ▸ List.mem_cons_self c cs)
  obtain ⟨hm, hp, hw⟩ := isDigit_not_sign hcd
  show parseSigned ((String.mk (natDigits n)).data.dropWhile jsWhitespace) = _
  have hdata : (String.mk (natDigits n)).data = c :: cs := hcs
  rw [hdata, List.dropWhile_cons, if_neg (by simp [hw])]
  simp only [parseSigned, if_neg hm, if_neg hp]
  rw [← hcs, parseUnsigned_natDigits]
  rfl

theorem parseInt_intToString (n : Int) : parseInt (intToString n) = some n := by
  by_cases hneg : n < 0
  · rw [intToString, if_pos hneg]
    show parseSigned ((String.mk ('-' :: natDigits n.natAbs)).data.dropWhile jsWhitespace) = _
    have hdata : (String.mk ('-' :: natDigits n.natAbs)).data
        = '-' :: natDigits n.natAbs := rfl
    rw [hdata, List.dropWhile_cons, if_neg (by decide)]
    simp only [parseSigned, if_pos rfl]
    rw [parseUnsigned_natDigits]
    show (some (-(n.natAbs : Int)) : Option Int) = some n
    congr 1
    omega
  · rw [intToString, if_neg hneg, parseInt_mk_natDigits]
    congr 1
    omega

theorem intToString_injective {a b : Int} (h : intToString a = intToString b) : a = b := by
  have ha := parseInt_intToString a
  have hb := parseInt_intToString b
  rw [h, hb] at ha
  exact (Option.some.injEq _ _).mp ha.symm

theorem intToString_ne_empty (n : Int) : intToString n ≠ "" := by
  rw [intToString]
  split
  · intro h
    exact List.cons_ne_nil _ _ (congrArg String.data h)
  · intro h
    exact natDigits_ne_nil _ (congrArg String.data h)

/-! ## Helper lemmas: the worker pool exit handler -/

theorem onExit_graceful (w : Nat) (s : MasterState) (e : ExitEvent)
    (hg : e.exitedAfterDisconnect = true) :
    onExit w s e =
      { state := { exitCount := s.exitCount,
                   gracefulExitCount := s.gracefulExitCount + 1,
                   poolSize := s.poolSize - 1 },
        forked := false,
        allGracefulFired := decide (s.gracefulExitCount + 1 = w) } := by
  simp [onExit, hg]

theorem onExit_crash (w : Nat) (s : MasterState) (e : ExitEvent)
    (hg : e.exitedAfterDisconnect = false) (hcnt : s.exitCount ≤ 10)
    (h1 : e.code ≠ some (EXIT_CODE_UNHANDLED_REJECTION : Int))
    (h2 : e.code ≠ some (EXIT_CODE_UNHANDLED_EXCEPTION : Int)) :
    onExit w s e =
      { state := { exitCount := s.exitCount + 1,
                   gracefulExitCount := s.gracefulExitCount,
                   poolSize := s.poolSize },
        forked := true,
        allGracefulFired := false } := by
  have hgt : ¬ s.exitCount > 10 := by omega
  simp [onExit, hg, hgt, h1, h2]

theorem runState_crashes (w : Nat) (es : List ExitEvent) :
    ∀ s : MasterState,
      (∀ x ∈ es, x.exitedAfterDisconnect = false ∧
        x.code ≠ some (EXIT_CODE_UNHANDLED_REJECTION : Int) ∧
        x.code ≠ some (EXIT_CODE_UNHANDLED_EXCEPTION : Int)) →
      s.exitCount + es.length ≤ 11 →
      runState w s es =
        { exitCount := s.exitCount + es.length,
          gracefulExitCount := s.gracefulExitCount,
          poolSize := s.poolSize } := by
  induction es with
  | nil => intro s _ _; simp [runState]
  | cons e es ih =>
    intro s hall hle
    obtain ⟨hg, h1, h2⟩ := hall e (List.mem_cons_self _ _)
    have hlen : s.exitCount + (es.length + 1) ≤ 11 := by
      simpa [List.length_cons] using hle
    have hstep := onExit_crash w s e hg (by omega) h1 h2
    show runState w (onExit w s e).state es = _
    rw [hstep]
    rw [ih _ (fun x hx => hall x (List.mem_cons_of_mem _ hx)) (by simp; omega)]
    simp [List.length_cons]
    omega

theorem runHandler_graceful (w : Nat) (es : List ExitEvent) :
    ∀ s : MasterState, (∀ e ∈ es, e.exitedAfterDisconnect = true) →
      (runHandler w s es).map (fun r => r.allGracefulFired)
        = (List.range es.length).map
            (fun i => decide (s.gracefulExitCount + (i + 1) = w)) ∧
      (runHandler w s es).map (fun r => r.forked) = List.replicate es.length false := by
  induction es with
  | nil => intro s _; simp [runHandler]
  | cons e es ih =>
    intro s hall
    have hg : e.exitedAfterDisconnect = true := hall e (List.mem_cons_self _ _)
    obtain ⟨ihf, ihk⟩ := ih (onExit w s e).state (fun x hx => hall x (List.mem_cons_of_mem _ hx))
    have hstep := onExit_graceful w s e hg
    constructor
    · show (onExit w s e).allGracefulFired ::
          (runHandler w (onExit w s e).state es).map (fun r => r.allGracefulFired) = _
      rw [ihf, hstep]
      rw [List.length_cons, List.range_succ_eq_map, List.map_cons, List.map_map]
      refine congrArg₂ _ (by simp) ?_
      refine List.map_congr_left ?_
      intro i _
      simp only [Function.comp]
      exact decide_eq_decide.mpr (by omega)
    · show (onExit w s e).forked ::
          (runHandler w (onExit w s e).state es).map (fun r => r.forked) = _
      rw [ihk, hstep, List.length_cons, List.replicate_succ]

theorem range_map_eq_last (w : Nat) (hw : 1 ≤ w) :
    (List.range w).map (fun i => decide (i + 1 = w))
      = List.replicate (w - 1) false ++ [true] := by
  obtain ⟨k, rfl⟩ : ∃ k, w = k + 1 := ⟨w - 1, by omega⟩
  rw [List.range_succ, List.map_append]
  have h1 : ((List.range k).map fun i => decide (i + 1 = k + 1))
      = (List.range k).map (fun _ => false) :=
    List.map_congr_left (fun i hi => by
      simp only [List.mem_range] at hi
      exact decide_eq_false (by omega))
  rw [h1, List.map_const']
  simp

/-! ## Helper lemmas: the SIGHUP master trace -/

theorem finalPidfile_kills (init : String) (ps : List Int) (rest : List MasterAction) :
    finalPidfile init (ps.map (fun p => MasterAction.killWorker p Sig.SIGKILL) ++ rest)
      = finalPidfile init rest := by
  induction ps with
  | nil => rfl
  | cons p ps ih =>
    rw [List.map_cons, List.cons_append]
    exact ih

/-! ## Helper lemmas: configuration defaulting -/

theorem jsOrString_ne_empty (v : Option String) (d : String) (hd : d ≠ "") :
    jsOrString v d ≠ "" := by
  cases v with
  | none => exact hd
  | some s =>
    simp only [jsOrString]
    split
    · exact hd
    · next h => exact h

theorem jsOrString_falsy (v : Option String) (d : String)
    (h : v = none ∨ v = some "") : jsOrString v d = d := by
  rcases h with rfl | rfl <;> simp [jsOrString]

/-! ## Claim theorems -/

/-- Claim C2: at construction, loading the pidfile yields an absent pid
(`none`) whenever the file is missing or unreadable (the read is embedded
as `none`; the silent catch surfaces no error) or its content does not
parse to an integer (`parseInt` yields `NaN`); otherwise the pid is the
integer `parseInt` extracts from the file content. -/
theorem pidfile_load_spec :
    loadPid none = none ∧
    (∀ data : String, parseInt data = none → loadPid (some data) = none) ∧
    (∀ (data : String) (n : Int), parseInt data = some n → loadPid (some data) = some n) := by
  refine ⟨rfl, ?_, ?_⟩
  · intro data h
    simp only [loadPid]
    rw [h]
    split <;> rfl
  · intro data n h
    by_cases hd : data = ""
    · subst hd
      rw [show parseInt "" = none from rfl] at h
      cases h
    · simp only [loadPid]
      rw [if_neg hd, h]

/-- Witness for C2 at concrete file contents. -/
theorem pidfile_load_spec_witness :
    loadPid (some "garbage") = none ∧ loadPid (some "42") = some 42 :=
  ⟨pidfile_load_spec.2.1 "garbage" rfl, pidfile_load_spec.2.2 "42" 42 rfl⟩

/-- Claim C9: pidfile round-trip — writing any integer pid and loading
yields the same integer; writing the empty string and loading yields an
absent pid. -/
theorem pidfile_roundtrip :
    (∀ n : Int, loadPid (writePidfile (intToString n)) = some n) ∧
    loadPid (writePidfile "") = none := by
  constructor
  · intro n
    show loadPid (some (intToString n)) = some n
    simp only [loadPid]
    rw [if_neg (intToString_ne_empty n), parseInt_intToString]
  · rfl

/-- Claim C3: the liveness probe returns alive (`true`) when the
zero-signal delivery succeeds, dead (`false`) when the OS reports no such
process, foreign (`true`, treated as alive by the Boolean interface every
caller consumes) when the OS reports permission denied, and dead (`false`)
when the recorded pid is absent. -/
theorem liveness_probe_classification (os : Int → KillOutcome) (p : Int) :
    (os p = KillOutcome.ok → processExists os (some p) = true) ∧
    (os p = KillOutcome.errESRCH → processExists os (some p) = false) ∧
    (os p = KillOutcome.errEPERM → processExists os (some p) = true) ∧
    processExists os none = false := by
  refine ⟨?_, ?_, ?_, rfl⟩ <;> intro h <;> simp [processExists, killProbe, h]

/-- Witness for C3 at concrete OS oracles. -/
theorem liveness_probe_classification_witness :
    processExists (fun _ => KillOutcome.ok) (some 1) = true ∧
    processExists (fun _ => KillOutcome.errESRCH) (some 1) = false ∧
    processExists (fun _ => KillOutcome.errEPERM) (some 1) = true :=
  ⟨(liveness_probe_classification (fun _ => KillOutcome.ok) 1).1 rfl,
   (liveness_probe_classification (fun _ => KillOutcome.errESRCH) 1).2.1 rfl,
   (liveness_probe_classification (fun _ => KillOutcome.errEPERM) 1).2.2.1 rfl⟩

/-- Claim C4: an ungraceful worker exit whose code is a sentinel
(unhandled rejection 131 or unhandled exception 132) never forks a
replacement, whatever the current retry-counter state. -/
theorem sentinel_exit_never_respawns (w : Nat) (s : MasterState) (e : ExitEvent)
    (hg : e.exitedAfterDisconnect = false)
    (hs : e.code = some (EXIT_CODE_UNHANDLED_REJECTION : Int) ∨
          e.code = some (EXIT_CODE_UNHANDLED_EXCEPTION : Int)) :
    (onExit w s e).forked = false := by
  by_cases hc : s.exitCount > 10
  · simp [onExit, hg, hc]
  · rcases hs with hs | hs <;>
      simp [onExit, hg, hc, hs, EXIT_CODE_UNHANDLED_REJECTION, EXIT_CODE_UNHANDLED_EXCEPTION]

/-- Witness for C4: a sentinel exit with the retry counter at 0 and at 11. -/
theorem sentinel_exit_never_respawns_witness :
    (onExit 2 (initialMasterState 2)
      { exitedAfterDisconnect := false, code := some 132, signal := none }).forked = false ∧
    (onExit 2 { exitCount := 11, gracefulExitCount := 0, poolSize := 2 }
      { exitedAfterDisconnect := false, code := some 131, signal := none }).forked = false :=
  ⟨sentinel_exit_never_respawns 2 (initialMasterState 2)
      { exitedAfterDisconnect := false, code := some 132, signal := none } rfl
      (Or.inr rfl),
   sentinel_exit_never_respawns 2 { exitCount := 11, gracefulExitCount := 0, poolSize := 2 }
      { exitedAfterDisconnect := false, code := some 131, signal := none } rfl
      (Or.inl rfl)⟩

/-- Claim C1, counterexample: after ten ungraceful non-sentinel exits in
one master lifetime, the eleventh such exit still forks a replacement and
restores the pool, because the source compares the pre-increment value in
`exitCount++ > 10`; the claim says the eleventh exit is no longer
respawned. -/
theorem eleventh_crash_still_respawns :
    (onExit 2 (runState 2 (initialMasterState 2) (List.replicate 10 crashEvent))
        crashEvent).forked = true ∧
    (onExit 2 (runState 2 (initialMasterState 2) (List.replicate 10 crashEvent))
        crashEvent).state.poolSize = 2 := by
  decide

/-- Claim C1 amended: after an ungraceful non-sentinel worker exit the
controller forks a replacement (restoring the pool to workerCount) as long
as at most 10 ungraceful exits occurred before it — i.e. for the first 11
such exits; on the 12th ungraceful exit in one master lifetime (11 prior
ungraceful exits) it stops respawning, leaving the pool one slot short. -/
theorem crash_respawn_ceiling (w : Nat) (es : List ExitEvent) (e : ExitEvent)
    (hes : ∀ x ∈ es, x.exitedAfterDisconnect = false ∧
      x.code ≠ some (EXIT_CODE_UNHANDLED_REJECTION : Int) ∧
      x.code ≠ some (EXIT_CODE_UNHANDLED_EXCEPTION : Int))
    (hg : e.exitedAfterDisconnect = false)
    (h1 : e.code ≠ some (EXIT_CODE_UNHANDLED_REJECTION : Int))
    (h2 : e.code ≠ some (EXIT_CODE_UNHANDLED_EXCEPTION : Int)) :
    (es.length ≤ 10 →
      (onExit w (runState w (initialMasterState w) es) e).forked = true ∧
      (onExit w (runState w (initialMasterState w) es) e).state.poolSize = (w : Int)) ∧
    (es.length = 11 →
      (onExit w (runState w (initialMasterState w) es) e).forked = false ∧
      (onExit w (runState w (initialMasterState w) es) e).state.poolSize = (w : Int) - 1) := by
  constructor
  · intro hlen
    rw [runState_crashes w es _ hes (by simp [initialMasterState]; omega)]
    rw [onExit_crash w _ e hg (by simp [initialMasterState]; omega) h1 h2]
    exact ⟨rfl, by simp [initialMasterState]⟩
  · intro hlen
    rw [runState_crashes w es _ hes (by simp [initialMasterState]; omega)]
    constructor <;> simp [onExit, hg, initialMasterState, hlen]

/-- Witness for C1 (amended): the very first crash forks a replacement and
keeps the pool full. -/
theorem crash_respawn_ceiling_witness :
    (onExit 1 (runState 1 (initialMasterState 1) []) crashEvent).forked = true ∧
    (onExit 1 (runState 1 (initialMasterState 1) []) crashEvent).state.poolSize
      = ((1 : Nat) : Int) :=
  (crash_respawn_ceiling 1 [] crashEvent (by simp) rfl (by decide) (by decide)).1 (by decide)

/-- Claim C8: when all `workerCount` workers of one master exit gracefully,
the "all cluster workers exited gracefully" completion fires exactly at the
last such exit — never before, and only once — and no graceful exit forks
a replacement. -/
theorem graceful_exit_completion (w : Nat) (es : List ExitEvent)
    (hw : 1 ≤ w) (hlen : es.length = w)
    (hall : ∀ e ∈ es, e.exitedAfterDisconnect = true) :
    (runHandler w (initialMasterState w) es).map (fun r => r.allGracefulFired)
      = List.replicate (w - 1) false ++ [true] ∧
    (runHandler w (initialMasterState w) es).map (fun r => r.forked)
      = List.replicate w false := by
  obtain ⟨hf, hk⟩ := runHandler_graceful w es (initialMasterState w) hall
  constructor
  · rw [hf, hlen]
    have hcongr : ((List.range w).map fun i =>
          decide ((initialMasterState w).gracefulExitCount + (i + 1) = w))
        = (List.range w).map fun i => decide (i + 1 = w) :=
      List.map_congr_left (fun i _ =>
        decide_eq_decide.mpr (by simp [initialMasterState]))
    rw [hcongr, range_map_eq_last w hw]
  · rw [hk, hlen]

/-- Witness for C8 with two workers and two graceful exits. -/
theorem graceful_exit_completion_witness :
    (runHandler 2 (initialMasterState 2) [gracefulEvent, gracefulEvent]).map
        (fun r => r.allGracefulFired) = List.replicate (2 - 1) false ++ [true] ∧
    (runHandler 2 (initialMasterState 2) [gracefulEvent, gracefulEvent]).map
        (fun r => r.forked) = List.replicate 2 false :=
  graceful_exit_completion 2 [gracefulEvent, gracefulEvent] (by decide) rfl (by decide)

/-- Claim C5: the master's SIGHUP handler first disconnects the cluster,
delivers SIGKILL to every still-running worker, spawns a new detached
master generation, leaves the pidfile holding the new master's pid — which
differs from the old master's — and performs the old master's successful
exit as its final action, after the pidfile write. -/
theorem sighup_restart_behavior (stdOut stdErr : String) (workerPids : List Int)
    (oldPid newPid : Int) (oldContent : String) (hne : newPid ≠ oldPid) :
    (sighupHandler stdOut stdErr workerPids newPid).head?
      = some MasterAction.disconnectAll ∧
    (∀ p ∈ workerPids, MasterAction.killWorker p Sig.SIGKILL
      ∈ sighupHandler stdOut stdErr workerPids newPid) ∧
    MasterAction.spawnChild newPid false ∈ sighupHandler stdOut stdErr workerPids newPid ∧
    finalPidfile oldContent (sighupHandler stdOut stdErr workerPids newPid)
      = intToString newPid ∧
    intToString newPid ≠ intToString oldPid ∧
    (sighupHandler stdOut stdErr workerPids newPid).getLast?
      = some (MasterAction.exitM EXIT_CODE_OK) := by
  refine ⟨rfl, ?_, ?_, ?_, ?_, ?_⟩
  · intro p hp
    apply List.mem_cons_of_mem
    apply List.mem_append_left
    exact List.mem_map.mpr ⟨p, hp, rfl⟩
  · apply List.mem_cons_of_mem
    apply List.mem_append_right
    simp [startDaemon]
  · show finalPidfile oldContent
        (workerPids.map (fun p => MasterAction.killWorker p Sig.SIGKILL)
          ++ startDaemon stdOut stdErr false newPid) = intToString newPid
    rw [finalPidfile_kills]
    rfl
  · intro h
    exact hne (intToString_injective h)
  · show (MasterAction.disconnectAll ::
        (workerPids.map (fun p => MasterAction.killWorker p Sig.SIGKILL)
          ++ startDaemon stdOut stdErr false newPid)).getLast? = _
    rw [← List.cons_append,
      List.getLast?_append_of_ne_nil _ (by simp [startDaemon])]
    rfl

/-- Witness for C5 with two workers and distinct old/new pids. -/
theorem sighup_restart_behavior_witness :
    finalPidfile "7" (sighupHandler "out.log" "err.log" [3, 4] 9) = intToString 9 ∧
    (sighupHandler "out.log" "err.log" [3, 4] 9).getLast?
      = some (MasterAction.exitM EXIT_CODE_OK) :=
  ⟨(sighup_restart_behavior "out.log" "err.log" [3, 4] 7 9 "7" (by decide)).2.2.2.1,
   (sighup_restart_behavior "out.log" "err.log" [3, 4] 7 9 "7" (by decide)).2.2.2.2.2⟩

/-- Claim C6, counterexample: a pidfile can record pid 0 (content "0"),
and the zero-signal probe of pid 0 targets the caller's own process group
and succeeds, so the recorded pid counts as alive; yet stop then writes the
empty string — not the decimal string of the known pid — because `0` is
falsy in the re-assertion expression `this.#pid ? pid-string : empty`. -/
theorem stop_zero_pid_counterexample :
    processExists (fun _ => KillOutcome.ok) (some 0) = true ∧
    stopCmd (fun _ => KillOutcome.ok) (some 0) false
      ≠ [CmdAction.writePidfileA (intToString 0),
         CmdAction.sendSignal (some 0) Sig.SIGINT,
         CmdAction.exitA EXIT_CODE_OK] ∧
    stopCmd (fun _ => KillOutcome.ok) (some 0) false
      = [CmdAction.writePidfileA "",
         CmdAction.sendSignal (some 0) Sig.SIGINT,
         CmdAction.exitA EXIT_CODE_OK] := by
  decide

/-- Claim C6 amended: when the recorded pid is alive, stop first overwrites
the pidfile with the re-assertion content — the decimal string of the known
pid when that pid is nonzero, the empty string for the falsy pid 0 — then
sends SIGINT by default or SIGTERM under the force flag, and exits with
status 0. -/
theorem stop_alive_behavior (os : Int → KillOutcome) (p : Int) (force : Bool)
    (halive : processExists os (some p) = true) :
    stopCmd os (some p) force
      = [CmdAction.writePidfileA (if p = 0 then "" else intToString p),
         CmdAction.sendSignal (some p) (if force then Sig.SIGTERM else Sig.SIGINT),
         CmdAction.exitA EXIT_CODE_OK] := by
  simp [stopCmd, halive, pidfileReassert]

/-- Witness for C6 (amended) at a live pid 7 without the force flag. -/
theorem stop_alive_behavior_witness :
    stopCmd (fun _ => KillOutcome.ok) (some 7) false
      = [CmdAction.writePidfileA (if (7 : Int) = 0 then "" else intToString 7),
         CmdAction.sendSignal (some 7) (if false then Sig.SIGTERM else Sig.SIGINT),
         CmdAction.exitA EXIT_CODE_OK] :=
  stop_alive_behavior (fun _ => KillOutcome.ok) 7 false rfl

/-- Claim C7: every precondition violation — start invoked as a fresh
cluster master while a live daemon distinct from the current process is
recorded, stop or restart while no live daemon is recorded, and restart on
win32 — ends the command at the cannot-execute exit status 126, with no
action after the exit (so it is never retried). -/
theorem precondition_violations_cannot_execute
    (os : Int → KillOutcome) (curPid : Int) (pid : Option Int)
    (platform : String) (force inspect iw : Bool) :
    (pid ≠ some curPid → processExists os pid = true →
      startCmd os curPid pid true iw inspect
        = StartOutcome.failExit EXIT_CODE_CANNOT_EXECUTE) ∧
    (processExists os pid = false →
      stopCmd os pid force
        = [CmdAction.logErrorA "Daemon not started, unable to stop.",
           CmdAction.exitA EXIT_CODE_CANNOT_EXECUTE]) ∧
    (processExists os pid = false →
      restartCmd os platform pid
        = [CmdAction.logErrorA "Daemon not started, unable to restart.",
           CmdAction.exitA EXIT_CODE_CANNOT_EXECUTE]) ∧
    (processExists os pid = true →
      restartCmd os "win32" pid
        = [CmdAction.logErrorA "Windows does not support POSIX, unable to restart.",
           CmdAction.exitA EXIT_CODE_CANNOT_EXECUTE]) := by
  refine ⟨?_, ?_, ?_, ?_⟩
  · intro hne halive
    simp [startCmd, hne, halive]
  · intro hdead
    simp [stopCmd, hdead]
  · intro hdead
    simp [restartCmd, hdead]
  · intro halive
    simp [restartCmd, halive]

/-- Witness for C7: all four violation paths at concrete inputs. -/
theorem precondition_violations_witness :
    startCmd (fun _ => KillOutcome.ok) 5 (some 7) true false false
      = StartOutcome.failExit EXIT_CODE_CANNOT_EXECUTE ∧
    stopCmd (fun _ => KillOutcome.errESRCH) (some 7) false
      = [CmdAction.logErrorA "Daemon not started, unable to stop.",
         CmdAction.exitA EXIT_CODE_CANNOT_EXECUTE] ∧
    restartCmd (fun _ => KillOutcome.errESRCH) "linux" (some 7)
      = [CmdAction.logErrorA "Daemon not started, unable to restart.",
         CmdAction.exitA EXIT_CODE_CANNOT_EXECUTE] ∧
    restartCmd (fun _ => KillOutcome.ok) "win32" (some 7)
      = [CmdAction.logErrorA "Windows does not support POSIX, unable to restart.",
         CmdAction.exitA EXIT_CODE_CANNOT_EXECUTE] :=
  ⟨(precondition_violations_cannot_execute (fun _ => KillOutcome.ok) 5 (some 7)
      "linux" false false false).1 (by decide) rfl,
   (precondition_violations_cannot_execute (fun _ => KillOutcome.errESRCH) 5 (some 7)
      "linux" false false false).2.1 rfl,
   (precondition_violations_cannot_execute (fun _ => KillOutcome.errESRCH) 5 (some 7)
      "linux" false false false).2.2.1 rfl,
   (precondition_violations_cannot_execute (fun _ => KillOutcome.ok) 5 (some 7)
      "win32" false false false).2.2.2 rfl⟩

/-- Claim C10: the constructor replaces any falsy configured sink path with
the defaults "out.log"/"err.log", so both resolved sink paths are nonempty;
consequently the daemon launcher's stdio choice is always the append-files
branch and the pipe-and-discard branch is unreachable. -/
theorem stdio_sinks_always_files (dev : Bool) (cpuCount : Int) (cfg : BalaurConfig) :
    (resolveConfig dev cpuCount cfg).stdOutPath ≠ "" ∧
    (resolveConfig dev cpuCount cfg).stdErrPath ≠ "" ∧
    ((cfg.stdOutPath = none ∨ cfg.stdOutPath = some "") →
      (resolveConfig dev cpuCount cfg).stdOutPath = "out.log") ∧
    ((cfg.stdErrPath = none ∨ cfg.stdErrPath = some "") →
      (resolveConfig dev cpuCount cfg).stdErrPath = "err.log") ∧
    stdioChoice (resolveConfig dev cpuCount cfg).stdOutPath
        (resolveConfig dev cpuCount cfg).stdErrPath
      = StdioMode.appendFiles (resolveConfig dev cpuCount cfg).stdOutPath
          (resolveConfig dev cpuCount cfg).stdErrPath := by
  have hout : (resolveConfig dev cpuCount cfg).stdOutPath ≠ "" :=
    jsOrString_ne_empty cfg.stdOutPath "out.log" (by decide)
  have herr : (resolveConfig dev cpuCount cfg).stdErrPath ≠ "" :=
    jsOrString_ne_empty cfg.stdErrPath "err.log" (by decide)
  refine ⟨hout, herr, ?_, ?_, ?_⟩
  · intro h
    exact jsOrString_falsy cfg.stdOutPath "out.log" h
  · intro h
    exact jsOrString_falsy cfg.stdErrPath "err.log" h
  · simp only [stdioChoice]
    rw [if_pos ⟨hout, herr⟩]

/-- Witness for C10: falsy configured sink paths resolve to the defaults. -/
theorem stdio_sinks_always_files_witness :
    (resolveConfig true 4 sampleConfig).stdOutPath = "out.log" ∧
    (resolveConfig true 4 sampleConfig).stdErrPath = "err.log" :=
  ⟨(stdio_sinks_always_files true 4 sampleConfig).2.2.1 (Or.inl rfl),
   (stdio_sinks_always_files true 4 sampleConfig).2.2.2.1 (Or.inr rfl)⟩

end Balaur
